import Mathlib

/-!
Verification of the HireFlow job-application form scripts.

The repository consists of three near-duplicate browser scripts
(src/app.js, src/unnamed/part_000, src/unnamed/part_001) that validate a
job-application form, derive an age from the date of birth, and POST the
payload to a remote Apps Script endpoint.  This file is a shallow
embedding of the pure logic of those scripts: validators, the date
reformatter, the age calculation, the per-field error collection of
handleSubmit, and the observable event traces of the submission paths of
the three variants.  Machine-level JS details that the scripts rely on
(String.prototype.trim, Number coercion, Date parsing of the
YYYY-MM-DD strings produced by a date input, stringification of
undefined and of numbers) are modelled explicitly, restricted to the
value shapes the form can actually produce, and documented at each
definition.
-/

namespace HireFlow

/-- Whitespace as trimmed by JS String.prototype.trim, restricted to the
ASCII whitespace characters that can occur in form inputs. -/
def isJsWhitespace (c : Char) : Bool :=
  c = ' ' || c = '\t' || c = '\n' || c = '\r'

/-- Embedding of s.trim(): drop leading and trailing whitespace. -/
def jsTrim (s : String) : String :=
  String.mk (((s.data.dropWhile isJsWhitespace).reverse.dropWhile isJsWhitespace).reverse)

/-- Decimal value of a list of digit characters (most significant first). -/
def digitsToNat (l : List Char) : Nat :=
  l.foldl (fun a c => 10 * a + (c.toNat - 48)) 0

/-- Decimal rendering of a natural number, as JS renders a non-negative
integer assigned to an input value. -/
def natToStr (n : Nat) : String :=
  String.mk (Nat.toDigits 10 n)

/-- Decimal rendering of an integer, as JS renders an integer number
coerced to a string. -/
def intToStr (i : Int) : String :=
  if i < 0 then "-" ++ natToStr i.natAbs else natToStr i.toNat

/-- Matcher for the regex \d repeated n times followed by end of input:
the list consists of exactly n decimal digits. -/
def matchDigits : Nat → List Char → Bool
  | 0, [] => true
  | 0, _ :: _ => false
  | _ + 1, [] => false
  | n + 1, c :: cs => c.isDigit && matchDigits n cs

/-- src/app.js validatePhone: tests the trimmed input against the regex
anchored ten-digit pattern. -/
def validatePhone (phone : String) : Bool :=
  matchDigits 10 (jsTrim phone).data

/-- Character class of the email regex bracket expression: any character
that is neither whitespace nor an at sign. -/
def emailOk (c : Char) : Bool :=
  !(isJsWhitespace c) && c != '@'

/-- All ways to split a list into a front part and a back part. -/
def splitsOf : List Char → List (List Char × List Char)
  | [] => [([], [])]
  | c :: cs => ([], c :: cs) :: (splitsOf cs).map (fun p => (c :: p.1, p.2))

/-- Backtracking matcher for the email regex of src/app.js validateEmail,
anchored at both ends: one or more emailOk characters, an at sign, one or
more emailOk characters, a literal dot, one or more emailOk characters. -/
def emailMatch (l : List Char) : Bool :=
  (splitsOf l).any fun p =>
    match p.2 with
    | '@' :: rest =>
      decide (p.1 ≠ []) && p.1.all emailOk &&
      ((splitsOf rest).any fun q =>
        match q.2 with
        | '.' :: tail =>
          decide (q.1 ≠ []) && q.1.all emailOk &&
          decide (tail ≠ []) && tail.all emailOk
        | _ => false)
    | _ => false

/-- src/app.js validateEmail: tests the trimmed input against the basic
email regex. -/
def validateEmail (email : String) : Bool :=
  emailMatch (jsTrim email).data

/-- Helper for the JS String.prototype.split embedding: returns the first
separator-free group and the list of the remaining groups. -/
def splitOnCharAux (sep : Char) : List Char → List Char × List (List Char)
  | [] => ([], [])
  | c :: cs =>
    let r := splitOnCharAux sep cs
    if c = sep then ([], r.1 :: r.2) else (c :: r.1, r.2)

/-- Embedding of JS s.split(sep) for a single-character separator: the
list of separator-free groups; the empty string splits to one empty
group, exactly as in JS. -/
def splitOnChar (sep : Char) (l : List Char) : List (List Char) :=
  (splitOnCharAux sep l).1 :: (splitOnCharAux sep l).2

/-- Indexing into the groups produced by split, as JS array indexing and
destructuring behave inside a template literal or string concatenation:
a position past the end is the value undefined, which stringifies to
the text undefined. -/
def partAt (parts : List (List Char)) (i : Nat) : String :=
  match parts[i]? with
  | some g => String.mk g
  | none => "undefined"

/-- src/app.js formatDOB (identical in part_000 and part_001): split the
input on the dash, then rebuild as day slash month slash year.  app.js
destructures the first three groups into year, month, day and part_001
indexes groups 0, 1, 2; both render a missing group as undefined. -/
def formatDOB (dateStr : String) : String :=
  let parts := splitOnChar '-' dateStr.data
  partAt parts 2 ++ "/" ++ partAt parts 1 ++ "/" ++ partAt parts 0

/-- Modelled from the spec: the inverse parser of formatDOB, converting
DD/MM/YYYY back to YYYY-MM-DD by the same direct segment reorder.  The
spec appeals to this inverse for its round-trip property; no such parser
exists in src. -/
def parseDOBBack (s : String) : String :=
  let parts := splitOnChar '/' s.data
  partAt parts 2 ++ "-" ++ partAt parts 1 ++ "-" ++ partAt parts 0

/-- Modelled JS Number coercion, restricted to the strings the age input
can hold: the empty string is 0, an optional sign followed by one or more
decimal digits is that integer, and anything else is NaN (none). -/
def jsNumber (s : String) : Option Int :=
  match s.data with
  | [] => some 0
  | '-' :: rest =>
    if rest ≠ [] ∧ rest.all Char.isDigit = true then
      some (-(digitsToNat rest : Int))
    else none
  | '+' :: rest =>
    if rest ≠ [] ∧ rest.all Char.isDigit = true then
      some ((digitsToNat rest : Int))
    else none
  | l =>
    if l.all Char.isDigit = true then some ((digitsToNat l : Int)) else none

/-- The JS test Number(s) less than zero: false when the coercion yields
NaN, since every comparison with NaN is false. -/
def jsNumberLtZero (s : String) : Bool :=
  match jsNumber s with
  | some v => decide (v < 0)
  | none => false

/-- A calendar date as the scripts read it off a JS Date object: year,
zero-based month (getMonth), day of month (getDate).  Fields are integers
exactly as the JS getters return them. -/
structure JsDate where
  year : Int
  month : Int
  day : Int
deriving DecidableEq

/-- src/app.js calculateAge, with both the current date and the parsed
birth date given as JsDate triples: year difference, decremented when the
month difference is negative, or zero with the current day before the
birth day. -/
def calculateAge (today birth : JsDate) : Int :=
  let age := today.year - birth.year
  let monthDiff := today.month - birth.month
  if monthDiff < 0 ∨ (monthDiff = 0 ∧ today.day < birth.day) then age - 1
  else age

/-- Lexicographic order on dates: before-or-equal by year, then month,
then day. -/
def lexLe (a b : JsDate) : Prop :=
  a.year < b.year ∨
    (a.year = b.year ∧
      (a.month < b.month ∨ (a.month = b.month ∧ a.day ≤ b.day)))

/-- Modelled JS Date parsing of the value of a date input: a string of
three nonempty all-digit dash-separated segments yields the date with a
zero-based month; any other string is an Invalid Date (none).  Time-zone
effects are not modelled: the local and UTC calendar date are assumed to
agree. -/
def jsParseDate (s : String) : Option JsDate :=
  match splitOnChar '-' s.data with
  | [y, m, d] =>
    if y ≠ [] ∧ m ≠ [] ∧ d ≠ [] ∧ (y ++ m ++ d).all Char.isDigit = true then
      some ⟨(digitsToNat y : Int), (digitsToNat m : Int) - 1, (digitsToNat d : Int)⟩
    else none
  | _ => none

/-- The dob change listener of src/app.js lines 136 to 144 (identical in
part_000): recompute the age and write it to the age input, writing the
empty string when the dob is cleared and also when the computed age is
negative or NaN (a NaN age fails the greater-or-equal test).  The return
value is the new text of the age input. -/
def dobListenerApp (today : JsDate) (dobValue : String) : String :=
  if dobValue ≠ "" then
    match jsParseDate dobValue with
    | some birth =>
      if 0 ≤ calculateAge today birth then intToStr (calculateAge today birth)
      else ""
    | none => ""
  else ""

/-- The dob change listener of src/unnamed/part_001 lines 14 to 28 (the
same listener appears in the second script concatenated into app.js): it
returns early when the dob is cleared, leaving the previous age text in
place, and otherwise writes the inlined age computation unconditionally,
negative values included; an unparseable dob writes NaN. -/
def dobListenerPart001 (today : JsDate) (dobValue : String) (oldAge : String) : String :=
  if dobValue = "" then oldAge
  else
    match jsParseDate dobValue with
    | some birth => intToStr (calculateAge today birth)
    | none => "NaN"

/-- The slice of a JS File object the scripts read: name, MIME type,
byte size. -/
structure JsFile where
  name : String
  type : String
  size : Nat
deriving DecidableEq

/-- The record literal returned by validateResume. -/
structure ValidationResult where
  valid : Bool
  message : String
deriving DecidableEq

/-- src/app.js MAX_RESUME_SIZE: 500 times 1024 bytes. -/
def MAX_RESUME_SIZE : Nat := 500 * 1024

/-- src/app.js ALLOWED_RESUME_TYPE. -/
def ALLOWED_RESUME_TYPE : String := "application/pdf"

/-- src/app.js validateResume (identical in part_000): missing file,
then wrong MIME type, then size strictly above MAX_RESUME_SIZE, else
valid. -/
def validateResume : Option JsFile → ValidationResult
  | none => ⟨false, "Please upload your resume."⟩
  | some f =>
    if f.type ≠ ALLOWED_RESUME_TYPE then ⟨false, "Only PDF files are allowed."⟩
    else if f.size > MAX_RESUME_SIZE then ⟨false, "File size must be under 500 KB."⟩
    else ⟨true, ""⟩

/-- The raw text of the input fields at submission time, plus the
selected resume file, exactly the values handleSubmit collects. -/
structure FormState where
  name : String
  age : String
  email : String
  phone : String
  dob : String
  address : String
  file : Option JsFile
deriving DecidableEq

/-- Error message shown for an empty name. -/
def msgNameRequired : String := "Name is required."

/-- Error message shown for an empty dob. -/
def msgDobRequired : String := "Date of birth is required."

/-- Error message shown when the dob is set but the age text is empty or
negative. -/
def msgDobInvalid : String := "Please select a valid date of birth."

/-- Error message shown for an invalid email. -/
def msgEmail : String := "Enter a valid email address."

/-- Error message shown for an invalid phone. -/
def msgPhone : String := "Enter a valid 10-digit phone number."

/-- Error message shown for an empty address. -/
def msgAddress : String := "Address is required."

/-- Name check of handleSubmit: the trimmed name must be nonempty. -/
def nameErrs (st : FormState) : List (String × String) :=
  if jsTrim st.name = "" then [("name", msgNameRequired)] else []

/-- Dob check of handleSubmit: the raw dob value must be nonempty, and
then the trimmed text of the age input must be nonempty and not coerce
to a negative number. -/
def dobErrs (st : FormState) : List (String × String) :=
  if st.dob = "" then [("dob", msgDobRequired)]
  else if jsTrim st.age = "" ∨ jsNumberLtZero (jsTrim st.age) = true then
    [("dob", msgDobInvalid)]
  else []

/-- Email check of handleSubmit. -/
def emailErrs (st : FormState) : List (String × String) :=
  if validateEmail (jsTrim st.email) = true then [] else [("email", msgEmail)]

/-- Phone check of handleSubmit. -/
def phoneErrs (st : FormState) : List (String × String) :=
  if validatePhone (jsTrim st.phone) = true then [] else [("phone", msgPhone)]

/-- Address check of handleSubmit: the trimmed address must be
nonempty. -/
def addressErrs (st : FormState) : List (String × String) :=
  if jsTrim st.address = "" then [("address", msgAddress)] else []

/-- Resume check of handleSubmit: forwards the validateResume result. -/
def resumeErrs (st : FormState) : List (String × String) :=
  if (validateResume st.file).valid = true then []
  else [("resume", (validateResume st.file).message)]

/-- The field errors reported by one run of the validation phase of
src/app.js handleSubmit lines 162 to 216 (identical in part_000), in
source order: every check runs, each failing field contributing its own
field id and message via showError. -/
def collectErrors (st : FormState) : List (String × String) :=
  nameErrs st ++ dobErrs st ++ emailErrs st ++ phoneErrs st ++
    addressErrs st ++ resumeErrs st

/-- A value appended to an outbound payload: form text or the binary
file object. -/
inductive FieldVal where
  | text : String → FieldVal
  | binary : JsFile → FieldVal
deriving DecidableEq

/-- Observable UI and network actions of a submission attempt, in the
order they occur. -/
inductive Ev where
  | setLoading : Bool → Ev
  | fetchPost : List (String × FieldVal) → Ev
  | statusSuccess : Ev
  | statusFailure : Ev
  | formReset : Ev
  | alertMsg : String → Ev
deriving DecidableEq

/-- Whether an event is an outbound POST. -/
def isFetch : Ev → Bool
  | .fetchPost _ => true
  | _ => false

/-- Number of outbound POSTs in a trace. -/
def countFetch (evs : List Ev) : Nat :=
  (evs.filter isFetch).length

/-- Temporal check threaded through a trace: starting from the given
submit-disabled state, every outbound POST must occur while the submit
control is disabled. -/
def fetchOnlyWhileLoading : Bool → List Ev → Bool
  | _, [] => true
  | _, .setLoading b :: evs => fetchOnlyWhileLoading b evs
  | st, .fetchPost _ :: evs => st && fetchOnlyWhileLoading st evs
  | st, _ :: evs => fetchOnlyWhileLoading st evs

/-- The submit-disabled state after a trace has run, starting from the
given state. -/
def loadingAfter (init : Bool) (evs : List Ev) : Bool :=
  evs.foldl (fun st e => match e with | .setLoading b => b | _ => st) init

/-- Whether a trace ever touches the submit-disabled state. -/
def hasSetLoading (evs : List Ev) : Bool :=
  evs.any fun e => match e with | .setLoading _ => true | _ => false

/-- The FormData payload built by src/app.js handleSubmit lines 219 to
226: seven appends, the trimmed field texts, the dob reformatted, and
the resume appended as the binary file itself; no resumeName field. -/
def appPayload (st : FormState) (f : JsFile) : List (String × FieldVal) :=
  [("name", .text (jsTrim st.name)), ("age", .text (jsTrim st.age)),
   ("email", .text (jsTrim st.email)), ("phone", .text (jsTrim st.phone)),
   ("dob", .text (formatDOB st.dob)), ("address", .text (jsTrim st.address)),
   ("resume", .binary f)]

/-- Result of one handleSubmit run: the field errors shown and the trace
of observable actions. -/
structure SubmitOutcome where
  errors : List (String × String)
  trace : List Ev
deriving DecidableEq

/-- src/app.js handleSubmit: when any check fails the handler returns
after showing the errors, dispatching nothing; otherwise it disables the
submit control, issues the single fetch POST, writes the success status
and resets the form when the fetch resolves or the failure status when
it throws, and re-enables the submit control in the finally block on
both paths.  The fetchOk flag abstracts whether the fetch promise
resolves. -/
def appHandleSubmit (st : FormState) (fetchOk : Bool) : SubmitOutcome :=
  if collectErrors st ≠ [] then ⟨collectErrors st, []⟩
  else
    match st.file with
    | none => ⟨[], []⟩
    | some f =>
      ⟨[], [Ev.setLoading true, Ev.fetchPost (appPayload st f)] ++
        (if fetchOk then [Ev.statusSuccess, Ev.formReset] else [Ev.statusFailure]) ++
        [Ev.setLoading false]⟩

/-- The payload of part_000 submitViaIframe, built at lines 243 to 252:
the trimmed field texts, the dob reformatted, the resume file name, and
the base64 text of the file content (the resolved fileToBase64 value,
passed in here as b64 since the file read is an external effect). -/
def part000Payload (st : FormState) (f : JsFile) (b64 : String) : List (String × FieldVal) :=
  [("name", .text (jsTrim st.name)), ("age", .text (jsTrim st.age)),
   ("email", .text (jsTrim st.email)), ("phone", .text (jsTrim st.phone)),
   ("dob", .text (formatDOB st.dob)), ("address", .text (jsTrim st.address)),
   ("resumeName", .text f.name), ("resumeBase64", .text b64)]

/-- part_000 handleSubmit: identical validation phase; on success the
hidden-iframe POST runs between setLoading true and the setLoading false
of the finally block, the postOk flag abstracting whether the iframe
load resolves the promise. -/
def part000HandleSubmit (st : FormState) (b64 : String) (postOk : Bool) : SubmitOutcome :=
  if collectErrors st ≠ [] then ⟨collectErrors st, []⟩
  else
    match st.file with
    | none => ⟨[], []⟩
    | some f =>
      ⟨[], [Ev.setLoading true, Ev.fetchPost (part000Payload st f b64)] ++
        (if postOk then [Ev.statusSuccess, Ev.formReset] else [Ev.statusFailure]) ++
        [Ev.setLoading false]⟩

/-- The FormData payload of part_001 handleSubmit lines 67 to 74: raw
untrimmed field texts, address before dob, the resume file name, and no
resume content in any form. -/
def part001Payload (st : FormState) (f : JsFile) : List (String × FieldVal) :=
  [("name", .text st.name), ("age", .text st.age), ("email", .text st.email),
   ("phone", .text st.phone), ("address", .text st.address),
   ("dob", .text (formatDOB st.dob)), ("resumeName", .text f.name)]

/-- part_001 handleSubmit lines 45 to 86: only the resume file is
checked, with alerts and an early return at the first failure (missing
file, non-PDF type, size above 500000); with an acceptable file the
fetch POST is dispatched unconditionally, with no submit-control
handling anywhere, and the status write and form reset run only when
the awaited fetch resolves (postOk). -/
def part001HandleSubmit (st : FormState) (postOk : Bool) : List Ev :=
  match st.file with
  | none => [.alertMsg "Upload resume"]
  | some f =>
    if f.type ≠ "application/pdf" then [.alertMsg "Only PDF allowed"]
    else if f.size > 500000 then [.alertMsg "Max size 500KB"]
    else
      [Ev.fetchPost (part001Payload st f)] ++
        (if postOk then [Ev.statusSuccess, Ev.formReset] else [])

/-- A 100 KB PDF resume file. -/
def exampleFile : JsFile := ⟨"resume.pdf", "application/pdf", 102400⟩

/-- A form state in which every field passes validation. -/
def exampleValidState : FormState :=
  ⟨"Ada Lovelace", "25", "ada@example.com", "1234567890", "2000-06-15",
   "1 Analytical Way", some exampleFile⟩

/-- A form state with an empty name and a malformed email, the other
fields valid. -/
def invalidFieldsState : FormState :=
  ⟨"", "25", "not-an-email", "1234567890", "2000-06-15",
   "1 Analytical Way", some exampleFile⟩

/-! ## Helper lemmas -/

theorem matchDigits_iff (n : Nat) (l : List Char) :
    matchDigits n l = true ↔ (l.length = n ∧ l.all Char.isDigit = true) := by
  induction l generalizing n with
  | nil =>
    cases n with
    | zero => simp [matchDigits]
    | succ m => simp [matchDigits]
  | cons c cs ih =>
    cases n with
    | zero => simp [matchDigits]
    | succ m =>
      simp only [matchDigits, Bool.and_eq_true, ih, List.all_cons,
        List.length_cons, Nat.add_left_inj]
      tauto

theorem strMkData (s : String) : String.mk s.data = s := rfl

theorem splitOnCharAux_nosep (sep : Char) (l : List Char)
    (h : ∀ c ∈ l, c ≠ sep) : splitOnCharAux sep l = (l, []) := by
  induction l with
  | nil => rfl
  | cons c cs ih =>
    simp only [splitOnCharAux]
    rw [if_neg (h c (List.mem_cons_self c cs)),
      ih (fun x hx => h x (List.mem_cons_of_mem c hx))]

theorem splitOnCharAux_append (sep : Char) (a rest : List Char)
    (h : ∀ c ∈ a, c ≠ sep) :
    splitOnCharAux sep (a ++ sep :: rest) =
      (a, (splitOnCharAux sep rest).1 :: (splitOnCharAux sep rest).2) := by
  induction a with
  | nil => simp [splitOnCharAux]
  | cons c cs ih =>
    simp only [List.cons_append, splitOnCharAux, List.append_eq]
    rw [if_neg (h c (List.mem_cons_self c cs)),
      ih (fun x hx => h x (List.mem_cons_of_mem c hx))]

theorem splitOnChar_nosep (sep : Char) (l : List Char)
    (h : ∀ c ∈ l, c ≠ sep) : splitOnChar sep l = [l] := by
  unfold splitOnChar
  rw [splitOnCharAux_nosep sep l h]

theorem splitOnChar_two (sep : Char) (a b : List Char)
    (ha : ∀ x ∈ a, x ≠ sep) (hb : ∀ x ∈ b, x ≠ sep) :
    splitOnChar sep (a ++ sep :: b) = [a, b] := by
  unfold splitOnChar
  rw [splitOnCharAux_append sep a b ha, splitOnCharAux_nosep sep b hb]

theorem splitOnChar_three (sep : Char) (a b c : List Char)
    (ha : ∀ x ∈ a, x ≠ sep) (hb : ∀ x ∈ b, x ≠ sep) (hc : ∀ x ∈ c, x ≠ sep) :
    splitOnChar sep (a ++ sep :: (b ++ sep :: c)) = [a, b, c] := by
  unfold splitOnChar
  rw [splitOnCharAux_append sep a (b ++ sep :: c) ha,
    splitOnCharAux_append sep b c hb, splitOnCharAux_nosep sep c hc]

theorem digitNoSep (c : Char) (h : c.isDigit = true) : c ≠ '-' ∧ c ≠ '/' := by
  refine ⟨fun he => ?_, fun he => ?_⟩ <;> (subst he; exact absurd h (by decide))

/-! ## C1: validateResume -/

/-- C1: validateResume fails with the missing-file message when no file
was supplied, fails with the wrong-type message when the MIME type is
not exactly application/pdf regardless of size, fails with the
too-large message when the byte size strictly exceeds 512000, and
succeeds otherwise; a PDF of exactly 512000 bytes is accepted and one
of 512001 bytes is rejected. -/
theorem validateResume_spec :
    validateResume none = ⟨false, "Please upload your resume."⟩ ∧
    (∀ f : JsFile, f.type ≠ "application/pdf" →
      validateResume (some f) = ⟨false, "Only PDF files are allowed."⟩) ∧
    (∀ f : JsFile, f.type = "application/pdf" → 512000 < f.size →
      validateResume (some f) = ⟨false, "File size must be under 500 KB."⟩) ∧
    (∀ f : JsFile, f.type = "application/pdf" → f.size ≤ 512000 →
      validateResume (some f) = ⟨true, ""⟩) ∧
    validateResume (some ⟨"resume.pdf", "application/pdf", 512000⟩) = ⟨true, ""⟩ ∧
    (validateResume (some ⟨"resume.pdf", "application/pdf", 512001⟩)).valid = false := by
  refine ⟨rfl, ?_, ?_, ?_, by decide, by decide⟩
  · intro f h
    simp only [validateResume, ALLOWED_RESUME_TYPE]
    rw [if_pos h]
  · intro f h1 h2
    simp only [validateResume, ALLOWED_RESUME_TYPE, MAX_RESUME_SIZE]
    rw [if_neg (not_not_intro h1), if_pos (by omega)]
  · intro f h1 h2
    simp only [validateResume, ALLOWED_RESUME_TYPE, MAX_RESUME_SIZE]
    rw [if_neg (not_not_intro h1), if_neg (by omega)]

/-- C1 witness: the wrong-type case of validateResume_spec applied to an
oversized non-PDF file. -/
theorem validateResume_spec_witness :
    validateResume (some ⟨"notes.txt", "text/plain", 999999⟩) =
      ⟨false, "Only PDF files are allowed."⟩ :=
  validateResume_spec.2.1 ⟨"notes.txt", "text/plain", 999999⟩ (by decide)

/-! ## C5: validatePhone -/

/-- C5: validatePhone accepts exactly the strings whose trimmed form has
length ten and consists only of decimal digits; the three example
strings of the spec behave as stated. -/
theorem validatePhone_spec :
    (∀ s : String, validatePhone s = true ↔
      ((jsTrim s).length = 10 ∧ (jsTrim s).data.all Char.isDigit = true)) ∧
    validatePhone "1234567890" = true ∧
    validatePhone "  1234567890  " = true ∧
    validatePhone "123-456-7890" = false := by
  refine ⟨?_, by decide, by decide, by decide⟩
  intro s
  rw [validatePhone, matchDigits_iff]
  exact Iff.rfl

/-- C5 witness: the characterization of validatePhone_spec applied to a
concrete accepted string. -/
theorem validatePhone_spec_witness :
    (jsTrim "1234567890").length = 10 ∧
      (jsTrim "1234567890").data.all Char.isDigit = true :=
  (validatePhone_spec.1 "1234567890").mp (by decide)

/-! ## C4: calculateAge -/

/-- C4: calculateAge returns the year difference, decremented by one
exactly when the current month and day precede the birth month and day
in the year; equivalently the result is the unique whole-year age under
lexicographic calendar order, and the spec boundary examples hold (June
is month index 5 for the zero-based getMonth). -/
theorem calculateAge_spec :
    (∀ t b : JsDate, calculateAge t b =
      t.year - b.year -
        (if t.month < b.month ∨ (t.month = b.month ∧ t.day < b.day) then 1 else 0)) ∧
    (∀ t b : JsDate,
      lexLe ⟨b.year + calculateAge t b, b.month, b.day⟩ t ∧
      ¬ lexLe ⟨b.year + calculateAge t b + 1, b.month, b.day⟩ t) ∧
    calculateAge ⟨2024, 5, 14⟩ ⟨2000, 5, 15⟩ = 23 ∧
    calculateAge ⟨2024, 5, 15⟩ ⟨2000, 5, 15⟩ = 24 := by
  refine ⟨?_, ?_, by decide, by decide⟩
  · intro t b
    simp only [calculateAge]
    split_ifs with h1 h2 h2 <;> omega
  · intro t b
    simp only [calculateAge, lexLe]
    split_ifs with h <;> constructor <;> omega

/-- C4 witness: the calendar-order characterization applied on the day
before the 24th birthday. -/
theorem calculateAge_spec_witness :
    lexLe ⟨2000 + calculateAge ⟨2024, 5, 14⟩ ⟨2000, 5, 15⟩, 5, 15⟩ ⟨2024, 5, 14⟩ :=
  (calculateAge_spec.2.1 ⟨2024, 5, 14⟩ ⟨2000, 5, 15⟩).1

theorem allDigitsNoDash (l : List Char) (h : l.all Char.isDigit = true) :
    ∀ x ∈ l, x ≠ '-' := by
  intro x hx
  have hxd := List.all_eq_true.mp h x hx
  exact (digitNoSep x (by simpa using hxd)).1

theorem allDigitsNoSlash (l : List Char) (h : l.all Char.isDigit = true) :
    ∀ x ∈ l, x ≠ '/' := by
  intro x hx
  have hxd := List.all_eq_true.mp h x hx
  exact (digitNoSep x (by simpa using hxd)).2

/-! ## C6: formatDOB segment reorder and round trip -/

/-- C6: on a well-formed YYYY-MM-DD string (three all-digit segments),
formatDOB returns the same three segments reordered as DD/MM/YYYY with
no calendar validation, and the spec inverse parser maps the result
back to the original string. -/
theorem formatDOB_spec :
    ∀ y m d : String,
      y.data.all Char.isDigit = true → m.data.all Char.isDigit = true →
      d.data.all Char.isDigit = true →
      formatDOB (y ++ "-" ++ m ++ "-" ++ d) = d ++ "/" ++ m ++ "/" ++ y ∧
      parseDOBBack (formatDOB (y ++ "-" ++ m ++ "-" ++ d)) =
        y ++ "-" ++ m ++ "-" ++ d := by
  intro y m d hy hm hd
  have hdash : "-".data = ['-'] := rfl
  have hslash : "/".data = ['/'] := rfl
  have h1 : (y ++ "-" ++ m ++ "-" ++ d).data =
      y.data ++ '-' :: (m.data ++ '-' :: d.data) := by
    simp [hdash, List.append_assoc]
  have hfmt : formatDOB (y ++ "-" ++ m ++ "-" ++ d) = d ++ "/" ++ m ++ "/" ++ y := by
    simp only [formatDOB, h1]
    rw [splitOnChar_three '-' y.data m.data d.data (allDigitsNoDash y.data hy)
      (allDigitsNoDash m.data hm) (allDigitsNoDash d.data hd)]
    rfl
  refine ⟨hfmt, ?_⟩
  rw [hfmt]
  have h2 : (d ++ "/" ++ m ++ "/" ++ y).data =
      d.data ++ '/' :: (m.data ++ '/' :: y.data) := by
    simp [hslash, List.append_assoc]
  simp only [parseDOBBack, h2]
  rw [splitOnChar_three '/' d.data m.data y.data (allDigitsNoSlash d.data hd)
    (allDigitsNoSlash m.data hm) (allDigitsNoSlash y.data hy)]
  rfl

/-- C6 witness: formatDOB_spec applied to the segments of 2024-06-15. -/
theorem formatDOB_spec_witness :
    formatDOB ("2024" ++ "-" ++ "06" ++ "-" ++ "15") =
      "15" ++ "/" ++ "06" ++ "/" ++ "2024" ∧
    parseDOBBack (formatDOB ("2024" ++ "-" ++ "06" ++ "-" ++ "15")) =
      "2024" ++ "-" ++ "06" ++ "-" ++ "15" :=
  formatDOB_spec "2024" "06" "15" (by decide) (by decide) (by decide)

/-! ## C10: formatDOB on malformed input -/

/-- C10: formatDOB is total and never reports an error: with no dash in
the input both the day and month segments render as undefined and the
input becomes the year segment, and with a single dash one undefined
segment remains; malformed dates pass through unflagged. -/
theorem formatDOB_total_spec :
    (∀ s : String, (∀ x ∈ s.data, x ≠ '-') →
      formatDOB s = "undefined/undefined/" ++ s) ∧
    (∀ a b : String, (∀ x ∈ a.data, x ≠ '-') → (∀ x ∈ b.data, x ≠ '-') →
      formatDOB (a ++ "-" ++ b) = "undefined/" ++ b ++ "/" ++ a) := by
  constructor
  · intro s hs
    simp only [formatDOB, splitOnChar_nosep '-' s.data hs]
    rfl
  · intro a b ha hb
    have hdash : "-".data = ['-'] := rfl
    have h1 : (a ++ "-" ++ b).data = a.data ++ '-' :: b.data := by
      simp [hdash, List.append_assoc]
    simp only [formatDOB, h1, splitOnChar_two '-' a.data b.data ha hb]
    rfl

/-- C10 witness: formatDOB_total_spec applied to a dash-free input. -/
theorem formatDOB_total_spec_witness :
    formatDOB "abc" = "undefined/undefined/" ++ "abc" :=
  formatDOB_total_spec.1 "abc" (by decide)

theorem mem_dobInvalid_iff (st : FormState) :
    ("dob", msgDobInvalid) ∈ collectErrors st ↔
      (st.dob ≠ "" ∧ (jsTrim st.age = "" ∨ jsNumberLtZero (jsTrim st.age) = true)) := by
  unfold collectErrors nameErrs dobErrs emailErrs phoneErrs addressErrs resumeErrs
  split_ifs <;>
    simp_all [msgDobInvalid, msgDobRequired, msgNameRequired, msgEmail,
      msgPhone, msgAddress]

/-! ## C9: the dob validity check reads the age input text -/

/-- C9: the valid-date error of handleSubmit is decided by the text of
the age input: with the dob set it appears exactly when the trimmed age
text is empty or coerces to a negative number, never by recomputing the
age from the dob; consequently a future dob with an edited age text
passes the check while a valid past dob with an edited negative age
text fails it. -/
theorem dobCheck_spec :
    (∀ st : FormState, ("dob", msgDobInvalid) ∈ collectErrors st ↔
      (st.dob ≠ "" ∧ (jsTrim st.age = "" ∨ jsNumberLtZero (jsTrim st.age) = true))) ∧
    (∃ st : FormState, ∃ today birth : JsDate,
      jsParseDate st.dob = some birth ∧ calculateAge today birth < 0 ∧
      ("dob", msgDobInvalid) ∉ collectErrors st) ∧
    (∃ st : FormState, ∃ today birth : JsDate,
      jsParseDate st.dob = some birth ∧ 0 ≤ calculateAge today birth ∧
      ("dob", msgDobInvalid) ∈ collectErrors st) := by
  refine ⟨mem_dobInvalid_iff, ?_, ?_⟩
  · exact ⟨⟨"A", "25", "a@b.com", "1234567890", "2030-01-01", "X", some exampleFile⟩,
      ⟨2024, 5, 15⟩, ⟨2030, 0, 1⟩, by decide, by decide, by decide⟩
  · exact ⟨⟨"A", "-3", "a@b.com", "1234567890", "2000-06-15", "X", some exampleFile⟩,
      ⟨2024, 5, 15⟩, ⟨2000, 5, 15⟩, by decide, by decide, by decide⟩

/-- C9 witness: the characterization applied to a state whose age text
is empty while the dob is set. -/
theorem dobCheck_spec_witness :
    ("dob", msgDobInvalid) ∈
      collectErrors ⟨"A", "", "a@b.com", "1234567890", "2000-06-15", "X", none⟩ :=
  (dobCheck_spec.1 ⟨"A", "", "a@b.com", "1234567890", "2000-06-15", "X", none⟩).mpr
    (by decide)

/-! ## C3: exhaustive validation gates transport -/

/-- C3 (amended): in the app.js and part_000 pipeline a submission with
any invalid field dispatches nothing, and every failing check
contributes its own field-scoped error independently of the other
fields, so an empty name and an invalid email together yield both
distinct errors and zero POSTs; the part_001 variant, however,
validates only the resume file and posts despite other invalid
fields. -/
theorem exhaustiveValidation_spec :
    (∀ st : FormState, ∀ ok : Bool, ∀ b64 : String, collectErrors st ≠ [] →
      (appHandleSubmit st ok).trace = [] ∧
      (part000HandleSubmit st b64 ok).trace = []) ∧
    (∀ st : FormState, jsTrim st.name = "" →
      ("name", msgNameRequired) ∈ collectErrors st) ∧
    (∀ st : FormState, st.dob = "" →
      ("dob", msgDobRequired) ∈ collectErrors st) ∧
    (∀ st : FormState, validateEmail (jsTrim st.email) = false →
      ("email", msgEmail) ∈ collectErrors st) ∧
    (∀ st : FormState, validatePhone (jsTrim st.phone) = false →
      ("phone", msgPhone) ∈ collectErrors st) ∧
    (∀ st : FormState, jsTrim st.address = "" →
      ("address", msgAddress) ∈ collectErrors st) ∧
    (∀ st : FormState, (validateResume st.file).valid = false →
      ("resume", (validateResume st.file).message) ∈ collectErrors st) ∧
    (("name", msgNameRequired) ∈ collectErrors invalidFieldsState ∧
      ("email", msgEmail) ∈ collectErrors invalidFieldsState ∧
      msgNameRequired ≠ msgEmail ∧
      (appHandleSubmit invalidFieldsState true).trace = []) := by
  refine ⟨?_, ?_, ?_, ?_, ?_, ?_, ?_, by decide⟩
  · intro st ok b64 h
    constructor
    · simp only [appHandleSubmit]
      rw [if_pos h]
    · simp only [part000HandleSubmit]
      rw [if_pos h]
  · intro st h
    unfold collectErrors nameErrs
    rw [if_pos h]
    simp
  · intro st h
    unfold collectErrors dobErrs
    rw [if_pos h]
    simp
  · intro st h
    unfold collectErrors emailErrs
    simp [h]
  · intro st h
    unfold collectErrors phoneErrs
    simp [h]
  · intro st h
    unfold collectErrors addressErrs
    rw [if_pos h]
    simp
  · intro st h
    unfold collectErrors resumeErrs
    simp [h]

/-- C3 witness: the email conjunct applied to the two-invalid-fields
state. -/
theorem exhaustiveValidation_spec_witness :
    ("email", msgEmail) ∈ collectErrors invalidFieldsState :=
  exhaustiveValidation_spec.2.2.2.1 invalidFieldsState (by decide)

/-- C3 counterexample: in the part_001 variant a submission with an
empty name and an invalid email but an acceptable resume dispatches its
POST anyway, so the claim as stated fails on that script. -/
theorem exhaustiveValidation_counterexample :
    jsTrim invalidFieldsState.name = "" ∧
    validateEmail (jsTrim invalidFieldsState.email) = false ∧
    countFetch (part001HandleSubmit invalidFieldsState true) = 1 := by
  decide

/-! ## C8: submit control disabled while the POST is in flight -/

/-- C8 (amended): in app.js and part_000 every POST occurs while the
submit control is disabled, and the control is re-enabled when the
attempt ends, on the success and the error path alike; the part_001
variant never touches the submit control at all. -/
theorem submitDisabled_spec :
    ∀ st : FormState, ∀ ok : Bool, ∀ b64 : String,
      fetchOnlyWhileLoading false (appHandleSubmit st ok).trace = true ∧
      loadingAfter false (appHandleSubmit st ok).trace = false ∧
      fetchOnlyWhileLoading false (part000HandleSubmit st b64 ok).trace = true ∧
      loadingAfter false (part000HandleSubmit st b64 ok).trace = false := by
  intro st ok b64
  by_cases h : collectErrors st = []
  · cases hf : st.file with
    | none =>
      simp [appHandleSubmit, part000HandleSubmit, h, hf,
        fetchOnlyWhileLoading, loadingAfter]
    | some f =>
      cases ok <;>
        simp [appHandleSubmit, part000HandleSubmit, h, hf,
          fetchOnlyWhileLoading, loadingAfter]
  · simp [appHandleSubmit, part000HandleSubmit, h,
      fetchOnlyWhileLoading, loadingAfter]

/-- C8 counterexample: the part_001 variant dispatches its POST with the
submit control never disabled: one fetch, no submit-control event, and
the fetch-only-while-disabled check fails. -/
theorem submitDisabled_counterexample :
    countFetch (part001HandleSubmit exampleValidState true) = 1 ∧
    hasSetLoading (part001HandleSubmit exampleValidState true) = false ∧
    fetchOnlyWhileLoading false (part001HandleSubmit exampleValidState true) = false := by
  decide

/-! ## C7: the dob change listener and the derived age field -/

/-- C7 (amended): the app.js listener recomputes the age on every dob
change, writes the empty string when the dob is cleared, and never
writes a negative value, since a negative computed age also yields the
empty string; the part_001 listener (also present in the second script
of app.js) has neither guarantee. -/
theorem dobListener_spec :
    ∀ today : JsDate, ∀ s : String,
      dobListenerApp today "" = "" ∧
      (∀ b : JsDate, jsParseDate s = some b → s ≠ "" →
        dobListenerApp today s =
          (if 0 ≤ calculateAge today b then intToStr (calculateAge today b)
           else "")) ∧
      (dobListenerApp today s = "" ∨ ∃ n : Nat, dobListenerApp today s = natToStr n) := by
  intro t s
  refine ⟨rfl, ?_, ?_⟩
  · intro b hb hs
    simp [dobListenerApp, hs, hb]
  · by_cases hs : s = ""
    · subst hs
      exact Or.inl rfl
    · cases hp : jsParseDate s with
      | none => exact Or.inl (by simp [dobListenerApp, hs, hp])
      | some b =>
        by_cases hage : 0 ≤ calculateAge t b
        · refine Or.inr ⟨(calculateAge t b).toNat, ?_⟩
          simp [dobListenerApp, hs, hp, hage, intToStr, not_lt.mpr hage]
        · exact Or.inl (by simp [dobListenerApp, hs, hp, hage])

/-- C7 witness: the recomputation conjunct applied on a past birth
date. -/
theorem dobListener_spec_witness :
    dobListenerApp ⟨2024, 5, 15⟩ "2000-06-15" =
      (if 0 ≤ calculateAge ⟨2024, 5, 15⟩ ⟨2000, 5, 15⟩ then
        intToStr (calculateAge ⟨2024, 5, 15⟩ ⟨2000, 5, 15⟩) else "") :=
  (dobListener_spec ⟨2024, 5, 15⟩ "2000-06-15").2.1 ⟨2000, 5, 15⟩ (by decide)
    (by decide)

/-- C7 counterexample: the part_001 dob listener leaves the stale age
text in place when the dob is cleared, rather than clearing it, and
writes the negative age for a future date of birth. -/
theorem dobListener_counterexample :
    dobListenerPart001 ⟨2024, 5, 15⟩ "" "37" = "37" ∧ ("37" : String) ≠ "" ∧
    dobListenerPart001 ⟨2024, 5, 15⟩ "2025-01-01" "" = "-1" := by
  decide

/-! ## C2: the dispatched payload -/

/-- C2 (amended): every all-fields-valid submission dispatches exactly
one POST; the payload always carries name, age, email, phone, the dob
reformatted by formatDOB, and address, while the resume appears as the
binary resume field with no resumeName in the app.js multipart variant,
as resumeName plus base64 text in the part_000 iframe variant, and as
resumeName alone in the degraded part_001 variant. -/
theorem payloadFields_spec :
    (∀ st : FormState, ∀ f : JsFile, ∀ ok : Bool, st.file = some f →
      collectErrors st = [] →
      countFetch (appHandleSubmit st ok).trace = 1 ∧
      Ev.fetchPost (appPayload st f) ∈ (appHandleSubmit st ok).trace ∧
      (appPayload st f).map Prod.fst =
        ["name", "age", "email", "phone", "dob", "address", "resume"] ∧
      ("dob", FieldVal.text (formatDOB st.dob)) ∈ appPayload st f) ∧
    (∀ st : FormState, ∀ f : JsFile, ∀ b64 : String, ∀ ok : Bool,
      st.file = some f → collectErrors st = [] →
      countFetch (part000HandleSubmit st b64 ok).trace = 1 ∧
      Ev.fetchPost (part000Payload st f b64) ∈ (part000HandleSubmit st b64 ok).trace ∧
      (part000Payload st f b64).map Prod.fst =
        ["name", "age", "email", "phone", "dob", "address", "resumeName",
         "resumeBase64"]) ∧
    (∀ st : FormState, ∀ f : JsFile, ∀ ok : Bool, st.file = some f →
      f.type = "application/pdf" → f.size ≤ 500000 →
      countFetch (part001HandleSubmit st ok) = 1 ∧
      (part001Payload st f).map Prod.fst =
        ["name", "age", "email", "phone", "address", "dob", "resumeName"]) := by
  refine ⟨?_, ?_, ?_⟩
  · intro st f ok h1 h2
    simp only [appHandleSubmit, h2, h1]
    cases ok <;> simp [countFetch, isFetch, appPayload]
  · intro st f b64 ok h1 h2
    simp only [part000HandleSubmit, h2, h1]
    cases ok <;> simp [countFetch, isFetch, part000Payload]
  · intro st f ok h1 h2 h3
    simp only [part001HandleSubmit, h1]
    rw [if_neg (not_not_intro h2), if_neg (Nat.not_lt.mpr h3)]
    cases ok <;> simp [countFetch, isFetch, part001Payload]

/-- C2 witness: the app.js conjunct applied to the all-valid state with
its 100 KB PDF. -/
theorem payloadFields_spec_witness :
    countFetch (appHandleSubmit exampleValidState true).trace = 1 :=
  (payloadFields_spec.1 exampleValidState exampleFile true (by decide) (by decide)).1

/-- C2 counterexample: the same all-valid submission through the app.js
handler dispatches exactly one POST whose payload has no resumeName
field, contradicting the claimed field list. -/
theorem payloadFields_counterexample :
    collectErrors exampleValidState = [] ∧
    countFetch (appHandleSubmit exampleValidState true).trace = 1 ∧
    Ev.fetchPost (appPayload exampleValidState exampleFile) ∈
      (appHandleSubmit exampleValidState true).trace ∧
    (appPayload exampleValidState exampleFile).map Prod.fst =
      ["name", "age", "email", "phone", "dob", "address", "resume"] ∧
    "resumeName" ∉ (appPayload exampleValidState exampleFile).map Prod.fst := by
  decide

end HireFlow
